import Mathlib

/-!
Verification development for the dynamic-sessions custom-container gateway.

The definitions below are a shallow embedding of the two source files:
`main.py` (chat gateway with the `execute_in_dynamic_session` tool) and
`session-container/server.py` (the sandbox HTTP server).  External effects
(the HTTP transport, the auth provider, `uuid.uuid4()`, wall-clock time,
`subprocess.run`) are passed in as explicit parameters; JSON bodies are
modelled at the field types the wire contract declares, with Python
`dict.get` defaults folded in (an absent string field and an empty string
are indistinguishable to the code, which reads them with a default).
-/

/-- Python substring test `needle in hay` on strings. -/
def str_contains_sub (hay needle : String) : Bool :=
  hay.data.tails.any (fun t => needle.data.isPrefixOf t)

/-- The fixed list of error keywords scanned for in stdout (main.py lines 295-298 and 329-332). -/
def error_keywords : List String :=
  ["Error:", "Traceback", "Exception:", "ImportError:", "ModuleNotFoundError:",
   "SyntaxError:", "NameError:", "TypeError:", "ValueError:", "AttributeError:"]

/-- `has_error_in_stdout`: any error keyword occurs in stdout (main.py lines 295-298). -/
def has_error_in_stdout (stdout : String) : Bool :=
  error_keywords.any (fun k => str_contains_sub stdout k)

/-- One entry of `active_sessions`.  `last_used`, `last_status`, `last_returnCode` are
absent (`none`) in a freshly created record; `last_returnCode`, when present, holds a
Python value that may itself be `None` (inner `none`). -/
structure SessionRecord where
  created_at : String
  execution_count : Nat
  last_used : Option String
  last_stdout : String
  last_stderr : String
  last_status : Option String
  last_returnCode : Option (Option Int)
deriving DecidableEq

/-- The fields read from a wrapped (Azure-style) 200 body: `props.get("stdout", "")`,
`props.get("stderr", "")`, `props.get("status", "")`, `props.get("returnCode", None)`
(main.py lines 284-287).  `returnCode = none` models an absent or null field. -/
structure WrappedProps where
  stdout : String
  stderr : String
  status : String
  returnCode : Option Int
deriving DecidableEq

/-- The fields read from a direct-shape 200 body: `result.get("output", "")`,
`result.get("error", "")`, `result.get("return_code", 0)`, `result.get("success", True)`
(main.py lines 323-326), at their contract types with defaults folded in. -/
structure DirectBody where
  output : String
  error : String
  return_code : Int
  success : Bool
deriving DecidableEq

/-- A parsed 200 response: wrapped when `"properties" in result`, direct otherwise
(main.py line 278). -/
inductive SandboxBody where
  | wrapped (p : WrappedProps)
  | direct (b : DirectBody)
deriving DecidableEq

/-- Python truthiness of `return_code and return_code != 0` for the wrapped shape
(main.py line 301): `None` and `0` are falsy. -/
def rc_truthy_nonzero : Option Int → Bool
  | none => false
  | some n => n != 0

/-- The wrapped-shape failure condition (main.py line 301). -/
def wrapped_failed (p : WrappedProps) : Bool :=
  (p.stderr != "") || has_error_in_stdout p.stdout || (p.status == "Failed")
    || rc_truthy_nonzero p.returnCode

/-- Session update for a wrapped 200 body (main.py lines 289-308): store the raw fields,
then classify, relocating stdout into stderr when the error text was printed to stdout. -/
def update_session_wrapped (rec : SessionRecord) (p : WrappedProps) : SessionRecord :=
  let rec1 := { rec with last_stdout := p.stdout, last_stderr := p.stderr,
                         last_returnCode := some p.returnCode }
  if wrapped_failed p then
    let rec2 := { rec1 with last_status := some "Failed" }
    if has_error_in_stdout p.stdout && (p.stderr == "") then
      { rec2 with last_stderr := p.stdout, last_stdout := "" }
    else
      rec2
  else
    { rec1 with last_status := some "Success" }

/-- The direct-shape failure condition (main.py line 335). -/
def direct_failed (b : DirectBody) : Bool :=
  (b.error != "") || has_error_in_stdout b.output || !b.success || (b.return_code != 0)

/-- Session update for a direct 200 body (main.py lines 335-349).  On failure with a
zero reported return code the stored return code is coerced to 1 (line 344). -/
def update_session_direct (rec : SessionRecord) (b : DirectBody) : SessionRecord :=
  if direct_failed b then
    let rec1 :=
      if has_error_in_stdout b.output && (b.error == "") then
        { rec with last_stderr := b.output, last_stdout := "" }
      else
        { rec with last_stdout := b.output, last_stderr := b.error }
    { rec1 with last_status := some "Failed",
                last_returnCode := some (some (if b.return_code != 0 then b.return_code else 1)) }
  else
    { rec with last_stdout := b.output, last_stderr := b.error,
               last_status := some "Success", last_returnCode := some (some b.return_code) }

/-- Lookup in the insertion-ordered session store (Python dict read). -/
def store_lookup : List (String × SessionRecord) → String → Option SessionRecord
  | [], _ => none
  | (k, v) :: rest, sid => if k == sid then some v else store_lookup rest sid

/-- Write to the insertion-ordered session store (Python dict write: replace in place,
append when absent). -/
def store_set : List (String × SessionRecord) → String → SessionRecord → List (String × SessionRecord)
  | [], sid, v => [(sid, v)]
  | (k, v0) :: rest, sid, v =>
      if k == sid then (k, v) :: rest else (k, v0) :: store_set rest sid v

/-- The record inserted when a session is auto-allocated (main.py lines 259-264). -/
def fresh_session_record (now : String) : SessionRecord :=
  { created_at := now, execution_count := 0, last_used := none,
    last_stdout := "", last_stderr := "", last_status := none, last_returnCode := none }

/-- Effect of an HTTP 200 response on the store for session `sid` (main.py lines
256-357): auto-allocate if absent, bump `execution_count` and `last_used`, then run the
shape-specific classifier.  Returns the new store and the final record. -/
def apply_http200 (store : List (String × SessionRecord)) (sid now : String)
    (body : SandboxBody) : List (String × SessionRecord) × SessionRecord :=
  let rec0 := match store_lookup store sid with
    | some r => r
    | none => fresh_session_record now
  let rec1 := { rec0 with execution_count := rec0.execution_count + 1, last_used := some now }
  let rec2 := match body with
    | .wrapped p => update_session_wrapped rec1 p
    | .direct b => update_session_direct rec1 b
  (store_set store sid rec2, rec2)

/-- Rendering of the report's return code: Python `f"{return_code}"` prints `None`
for an absent value. -/
def py_show_rc : Option Int → String
  | none => "None"
  | some n => toString n

/-- Python truthiness of `return_code != 0` at report time (main.py line 366):
`None != 0` is true. -/
def rc_read_nonzero : Option Int → Bool
  | none => true
  | some n => n != 0

/-- The human-readable report built from the stored record (main.py lines 359-401). -/
def format_execution_report (session_id code : String) (rec : SessionRecord) : String :=
  let return_code : Option Int := match rec.last_returnCode with
    | none => some 0
    | some v => v
  let status := rec.last_status.getD "Success"
  let sid12 := session_id.take 12
  if (status == "Failed") || rc_read_nonzero return_code || (rec.last_stderr != "") then
    let errText := if rec.last_stderr != "" then rec.last_stderr else rec.last_stdout
    "❌ **Code Execution Failed**\n\n**Session ID:** " ++ sid12
      ++ "...\n**Return Code:** " ++ py_show_rc return_code
      ++ "\n\n**Code Executed:**\n```python\n" ++ code
      ++ "\n```\n\n**Error:**\n```\n" ++ errText ++ "\n```\n"
  else
    "✅ **Code Execution Successful**\n\n**Session ID:** " ++ sid12
      ++ "...\n\n**Code Executed:**\n```python\n" ++ code
      ++ "\n```\n\n**Output:**\n```\n"
      ++ (if rec.last_stdout != "" then rec.last_stdout else "(no output)") ++ "\n```\n"

/-- One poll response (main.py lines 411-415): its HTTP status, the optional
`properties.status` and `properties.result` strings, and `raw_text` standing for the
`str(result)` rendering used as the fallback result text. -/
structure PollResp where
  status_code : Int
  props_status : Option String
  props_result : Option String
  raw_text : String
deriving DecidableEq

/-- A poll attempt succeeds when the GET returned 200 and the body's
`properties.status` is `"Completed"` (main.py lines 412-414). -/
def poll_completed (p : PollResp) : Bool :=
  (p.status_code == 200) && (p.props_status == some "Completed")

/-- Report when the 10 poll attempts are exhausted (main.py line 419). -/
def timeout_report : String :=
  "⏳ Code execution initiated but timed out waiting for result. Check session pool status."

/-- Report for a completed async execution (main.py line 416). -/
def poll_success_report (execution_result : String) : String :=
  "✅ Code executed successfully:\n\n" ++ execution_result

/-- The polling loop (main.py lines 409-419), fuelled by the remaining attempt count.
`polls i` is the response to the i-th GET.  Returns the report text and the total
seconds slept (one `time.sleep(1)` before each attempt). -/
def poll_loop (polls : Nat → PollResp) : Nat → Nat → String × Nat
  | _, 0 => (timeout_report, 0)
  | i, fuel + 1 =>
      let p := polls i
      if poll_completed p then
        (poll_success_report (p.props_result.getD p.raw_text), 1)
      else
        let rest := poll_loop polls (i + 1) fuel
        (rest.1, rest.2 + 1)

/-- An entry of `current_tools_used` (main.py lines 167-173). -/
structure ToolRecord where
  name : String
  icon : String
  description : String
  session_id : Option String
deriving DecidableEq

/-- The module-level mutable state touched by the tool: the session store, the
per-request tools-used list and the per-request seen-sessions set. -/
structure GatewayState where
  active_sessions : List (String × SessionRecord)
  current_tools_used : List ToolRecord
  current_request_sessions : List String
deriving DecidableEq

/-- Session-id selection (main.py lines 155-162): the last key of the store when it is
non-empty, else the freshly minted identifier. -/
def pick_or_create_session (store : List (String × SessionRecord)) (fresh_id : String) : String :=
  match (store.map Prod.fst).getLast? with
  | some k => k
  | none => fresh_id

/-- Minting of a new session id from a uuid4 hex string: `uuid.uuid4().hex[:12]`
(main.py line 161). -/
def mint_session_id (uuid_hex : String) : String :=
  ⟨uuid_hex.data.take 12⟩

/-- The tool-invocation record appended for an execution (main.py lines 168-173). -/
def execution_tool_record (sid : String) : ToolRecord :=
  { name := "execute_in_dynamic_session", icon := "📦",
    description := "Python Execution", session_id := some sid }

/-- Per-request dedup of tool-invocation tracking (main.py lines 167-174). -/
def track_session (st : GatewayState) (sid : String) : GatewayState :=
  if sid ∈ st.current_request_sessions then st
  else
    { st with current_tools_used := st.current_tools_used ++ [execution_tool_record sid],
              current_request_sessions := sid :: st.current_request_sessions }

/-- Outcome of the auth + HTTP interaction with the sandbox, supplied by the
environment.  `http202` carries the optional Location header and the poll responses. -/
inductive HttpOutcome where
  | authFail (msg : String)
  | netFail (msg : String)
  | http200 (body : SandboxBody)
  | http202 (location : Option String) (polls : Nat → PollResp)
  | otherStatus (code : Int) (body_text : String)
  | timeoutRaised

/-- The configuration-error report (main.py lines 180-182). -/
def config_error_report : String :=
  "❌ Configuration Error: Azure Container Apps session pool not configured. Set AZURE_CONTAINER_APPS_SESSION_POOL_ENDPOINT environment variable."

/-- The execution tool (main.py lines 131-435): resolve a session id, record the
invocation (dedup per request), check configuration, then dispatch on the outcome of
the sandbox call, updating the store only on HTTP 200. -/
def execute_in_dynamic_session (endpoint : Option String) (fresh_id now : String)
    (outcome : HttpOutcome) (code : String) (st : GatewayState) : String × GatewayState :=
  let sid := pick_or_create_session st.active_sessions fresh_id
  let st1 := track_session st sid
  match endpoint with
  | none => (config_error_report, st1)
  | some _ =>
    match outcome with
    | .authFail msg =>
        ("Authentication error: Unable to get access token. Error: " ++ msg, st1)
    | .netFail msg =>
        ("Network error: Unable to connect to session pool. Error: " ++ msg, st1)
    | .http200 body =>
        let upd := apply_http200 st1.active_sessions sid now body
        (format_execution_report sid code upd.2, { st1 with active_sessions := upd.1 })
    | .http202 location polls =>
        match location with
        | some _ => ((poll_loop polls 0 10).1, st1)
        | none => ("⏳ Code execution accepted but no polling URL provided.", st1)
    | .otherStatus scode body_text =>
        ("❌ Execution Error: Session execution failed (HTTP " ++ toString scode ++ "): "
          ++ body_text, st1)
    | .timeoutRaised =>
        ("⏰ Timeout Error: Session execution timed out after 30 seconds", st1)

/-- Reset of the per-request tracking at the start of a chat request
(main.py lines 1020-1022). -/
def reset_request_tracking (st : GatewayState) : GatewayState :=
  { st with current_tools_used := [], current_request_sessions := [] }

/-- The parameters of one invocation of the execution tool within a request. -/
structure CallParams where
  endpoint : Option String
  fresh_id : String
  now : String
  outcome : HttpOutcome
  code : String

/-- Sequential execution of a list of tool invocations against the shared state. -/
def run_calls (st : GatewayState) : List CallParams → GatewayState
  | [] => st
  | p :: ps =>
      run_calls (execute_in_dynamic_session p.endpoint p.fresh_id p.now p.outcome p.code st).2 ps

/-- Number of tool-invocation records carrying a given session id. -/
def count_session_records (sid : String) (tools : List ToolRecord) : Nat :=
  (tools.filter (fun t => t.session_id == some sid)).length

/-- The `properties` of a sandbox-server request (server.py lines 74-77), at the
field types the contract declares; `none` is an absent key. -/
structure SrvProps where
  code : Option String
  shellCommand : Option String
  language : Option String
  timeoutInSeconds : Option Int
deriving DecidableEq

/-- A parsed request body for the sandbox server's `/execute` (server.py lines 59-72):
the optional nested `properties` plus the top-level fallback fields. -/
structure SrvRequest where
  properties : Option SrvProps
  code : Option String
  shellCommand : Option String
  command : Option String
  language : Option String
  timeout : Option Int
  timeoutInSeconds : Option Int
deriving DecidableEq

/-- Python falsiness of a properties dict: the empty dict (server.py line 60). -/
def props_is_empty (p : SrvProps) : Bool :=
  (p.code == none) && (p.shellCommand == none) && (p.language == none)
    && (p.timeoutInSeconds == none)

/-- Python `a or b` on optional strings (absent or empty is falsy). -/
def py_or_str : Option String → Option String → Option String
  | some s, b => if s == "" then b else some s
  | none, b => b

/-- Python `a or b` on optional ints (absent or zero is falsy). -/
def py_or_int : Option Int → Option Int → Option Int
  | some n, b => if n == 0 then b else some n
  | none, b => b

/-- Top-level fallback properties (server.py lines 62-72). -/
def fallback_properties (data : SrvRequest) : SrvProps :=
  { code := data.code,
    shellCommand := py_or_str data.shellCommand data.command,
    language := data.language,
    timeoutInSeconds := py_or_int data.timeout data.timeoutInSeconds }

/-- The properties actually used: the nested dict when present and non-empty, else the
top-level fallback (server.py lines 59-72). -/
def effective_properties (data : SrvRequest) : SrvProps :=
  match data.properties with
  | some p => if props_is_empty p then fallback_properties data else p
  | none => fallback_properties data

/-- Python `bool(s and s.strip())` (server.py lines 80-81): `s.strip()` is truthy
exactly when `s` has a non-whitespace character. -/
def py_truthy_stripped (s : String) : Bool :=
  (s != "") && s.data.any (fun c => !c.isWhitespace)

/-- Outcome of the `subprocess.run` call, supplied by the environment. -/
inductive RunOutcome where
  | finished (stdout stderr : String) (returncode : Int)
  | timedOut
  | raised (msg trace : String)
deriving DecidableEq

/-- A response body of the sandbox server: either a top-level error object or a
`properties`-wrapped object whose optional fields mirror which keys each source
branch emits. -/
inductive SrvBody where
  | errorBody (error : String)
  | propsBody (status : String) (stdout : Option String) (stderr : String)
      (returnCode : Option Int) (executionResult : Option String) (executionTimeMs : Int)
deriving DecidableEq

/-- Python `str.lower()`, character by character. -/
def py_lower (s : String) : String :=
  ⟨s.data.map Char.toLower⟩

/-- The language dispatch of server.py lines 113-157. -/
def supported_language (language : String) : Bool :=
  let l := py_lower language
  (l == "python") || (l == "javascript") || (l == "js") || (l == "bash") || (l == "sh")
    || (l == "powershell") || (l == "pwsh")

/-- The `/execute` handler of the sandbox server (server.py lines 40-193) for a POST:
returns the response body and the HTTP status.  `data = none` models a missing/falsy
JSON body; `runner` is the outcome of the subprocess call when one is reached. -/
def srv_execute_code (data : Option SrvRequest) (runner : RunOutcome) : SrvBody × Int :=
  match data with
  | none => (.errorBody "No JSON data provided", 400)
  | some d =>
    let props := effective_properties d
    let code := props.code.getD ""
    let shell_command := props.shellCommand.getD ""
    let language := props.language.getD "python"
    let timeout := props.timeoutInSeconds.getD 30
    let has_code := py_truthy_stripped code
    let has_shell_command := py_truthy_stripped shell_command
    if !has_code && !has_shell_command then
      (.errorBody "No code or command provided", 400)
    else if shell_command != "" then
      match runner with
      | .finished stdout stderr rc =>
          (.propsBody (if rc == 0 then "Success" else "Failed") (some stdout) stderr
            (some rc) none 0, 200)
      | .timedOut =>
          (.propsBody "Failed" none "Execution timed out" none none (timeout * 1000), 408)
      | .raised msg trace =>
          (.propsBody "Failed" none ("Execution error: " ++ msg ++ "\n" ++ trace) none none 0, 500)
    else if supported_language language then
      match runner with
      | .finished stdout stderr rc =>
          (.propsBody (if rc == 0 then "Success" else "Failed") (some stdout) stderr
            (some rc) (some (if rc == 0 then stdout else stderr)) 0, 200)
      | .timedOut =>
          (.propsBody "Failed" none "Execution timed out" none none (timeout * 1000), 408)
      | .raised msg trace =>
          (.propsBody "Failed" none ("Execution error: " ++ msg ++ "\n" ++ trace) none none 0, 500)
    else
      (.errorBody ("Unsupported language: " ++ language), 400)

/-- A response body is shape A when its fields sit under `properties`. -/
def srv_body_is_props : SrvBody → Bool
  | .propsBody _ _ _ _ _ _ => true
  | .errorBody _ => false

/-- Full shape A per the wire contract: `status`, `stdout`, `stderr`, `returnCode`
all present under `properties`. -/
def srv_body_full_shape_a : SrvBody → Bool
  | .propsBody _ (some _) _ (some _) _ _ => true
  | _ => false

/-- A request reaches the subprocess runner: validation passes and the dispatch finds
either a shell command or a supported language. -/
def srv_dispatches (d : SrvRequest) : Bool :=
  let props := effective_properties d
  let code := props.code.getD ""
  let shell_command := props.shellCommand.getD ""
  let language := props.language.getD "python"
  (py_truthy_stripped code || py_truthy_stripped shell_command)
    && ((shell_command != "") || supported_language language)

/-- Characterization of the truthiness test on the wrapped return code. -/
theorem rc_truthy_nonzero_iff (rc : Option Int) :
    rc_truthy_nonzero rc = true ↔ ∃ n, rc = some n ∧ n ≠ 0 := by
  cases rc <;> simp [rc_truthy_nonzero]

/-- The wrapped update always writes a definite status, decided by `wrapped_failed`. -/
theorem update_wrapped_status (rec : SessionRecord) (p : WrappedProps) :
    (update_session_wrapped rec p).last_status
      = (if wrapped_failed p then some "Failed" else some "Success") := by
  unfold update_session_wrapped
  by_cases h : wrapped_failed p = true
  · simp only [h, if_true]
    by_cases h2 : (has_error_in_stdout p.stdout && (p.stderr == "")) = true <;> simp [h2]
  · simp [h]

/-- The direct update always writes a definite status, decided by `direct_failed`. -/
theorem update_direct_status (rec : SessionRecord) (b : DirectBody) :
    (update_session_direct rec b).last_status
      = (if direct_failed b then some "Failed" else some "Success") := by
  unfold update_session_direct
  by_cases h : direct_failed b = true
  · simp [h]
  · simp [h]

/-- Propositional reading of the wrapped failure condition. -/
theorem wrapped_failed_iff (p : WrappedProps) :
    wrapped_failed p = true
      ↔ (p.stderr ≠ "" ∨ has_error_in_stdout p.stdout = true ∨ p.status = "Failed"
          ∨ ∃ n, p.returnCode = some n ∧ n ≠ 0) := by
  simp only [wrapped_failed, Bool.or_eq_true, bne_iff_ne, ne_eq, beq_iff_eq,
    rc_truthy_nonzero_iff, or_assoc]

/-- Propositional reading of the direct failure condition. -/
theorem direct_failed_iff (b : DirectBody) :
    direct_failed b = true
      ↔ (b.error ≠ "" ∨ has_error_in_stdout b.output = true ∨ b.success = false
          ∨ b.return_code ≠ 0) := by
  simp only [direct_failed, Bool.or_eq_true, bne_iff_ne, ne_eq, Bool.not_eq_true', or_assoc]

/-- C1: after an HTTP 200 response of either shape, the classifier stores
`last_status = "Failed"` exactly when normalized stderr is non-empty, stdout matches an
error keyword, the explicit status field is `"Failed"`, the return code is a non-zero
integer (null/absent falsy, hence treated like zero), or — direct shape — the success
field is false; in particular non-empty stderr always yields `"Failed"`. -/
theorem classifier_failed_iff (rec recd : SessionRecord) (p : WrappedProps) (b : DirectBody) :
    ((update_session_wrapped rec p).last_status = some "Failed"
      ↔ (p.stderr ≠ "" ∨ has_error_in_stdout p.stdout = true ∨ p.status = "Failed"
          ∨ ∃ n, p.returnCode = some n ∧ n ≠ 0))
  ∧ ((update_session_direct recd b).last_status = some "Failed"
      ↔ (b.error ≠ "" ∨ has_error_in_stdout b.output = true ∨ b.success = false
          ∨ b.return_code ≠ 0))
  ∧ (p.stderr ≠ "" → (update_session_wrapped rec p).last_status = some "Failed")
  ∧ (b.error ≠ "" → (update_session_direct recd b).last_status = some "Failed") := by
  have hw : (update_session_wrapped rec p).last_status = some "Failed"
      ↔ wrapped_failed p = true := by
    rw [update_wrapped_status]
    by_cases h : wrapped_failed p = true <;> simp [h]
  have hd : (update_session_direct recd b).last_status = some "Failed"
      ↔ direct_failed b = true := by
    rw [update_direct_status]
    by_cases h : direct_failed b = true <;> simp [h]
  refine ⟨hw.trans (wrapped_failed_iff p), hd.trans (direct_failed_iff b), ?_, ?_⟩
  · intro hne
    exact (hw.trans (wrapped_failed_iff p)).mpr (Or.inl hne)
  · intro hne
    exact (hd.trans (direct_failed_iff b)).mpr (Or.inl hne)

/-- Witness for C1: concrete responses with non-empty stderr are classified Failed in
both shapes. -/
theorem classifier_failed_iff_witness :
    (update_session_wrapped (fresh_session_record "t0")
        { stdout := "4\n", stderr := "boom", status := "Success", returnCode := some 0 }).last_status
      = some "Failed"
  ∧ (update_session_direct (fresh_session_record "t0")
        { output := "4\n", error := "boom", return_code := 0, success := true }).last_status
      = some "Failed" := by
  have h := classifier_failed_iff (fresh_session_record "t0") (fresh_session_record "t0")
    { stdout := "4\n", stderr := "boom", status := "Success", returnCode := some 0 }
    { output := "4\n", error := "boom", return_code := 0, success := true }
  exact ⟨h.2.2.1 (by decide), h.2.2.2 (by decide)⟩

/-- C2: when stdout matches an error keyword and stderr is empty, both shapes relocate
stdout into `last_stderr`, clear `last_stdout`, and mark the session Failed. -/
theorem classifier_relocates_stdout (rec recd : SessionRecord) (p : WrappedProps) (b : DirectBody)
    (hw1 : has_error_in_stdout p.stdout = true) (hw2 : p.stderr = "")
    (hd1 : has_error_in_stdout b.output = true) (hd2 : b.error = "") :
    (update_session_wrapped rec p).last_stderr = p.stdout
  ∧ (update_session_wrapped rec p).last_stdout = ""
  ∧ (update_session_wrapped rec p).last_status = some "Failed"
  ∧ (update_session_direct recd b).last_stderr = b.output
  ∧ (update_session_direct recd b).last_stdout = ""
  ∧ (update_session_direct recd b).last_status = some "Failed" := by
  have hwf : wrapped_failed p = true := by
    simp [wrapped_failed, hw1]
  have hdf : direct_failed b = true := by
    simp [direct_failed, hd1]
  refine ⟨?_, ?_, ?_, ?_, ?_, ?_⟩ <;>
    simp [update_session_wrapped, update_session_direct, hwf, hdf, hw1, hw2, hd1, hd2]

/-- Witness for C2: a traceback printed to stdout with empty stderr is relocated in
both shapes. -/
theorem classifier_relocates_stdout_witness :
    (update_session_wrapped (fresh_session_record "t0")
        { stdout := "Traceback x", stderr := "", status := "Success", returnCode := some 0 }).last_stderr
      = "Traceback x"
  ∧ (update_session_direct (fresh_session_record "t0")
        { output := "Traceback x", error := "", return_code := 0, success := true }).last_stdout
      = "" := by
  have h := classifier_relocates_stdout (fresh_session_record "t0") (fresh_session_record "t0")
    { stdout := "Traceback x", stderr := "", status := "Success", returnCode := some 0 }
    { output := "Traceback x", error := "", return_code := 0, success := true }
    (by decide) (by decide) (by decide) (by decide)
  exact ⟨h.1, h.2.2.2.2.1⟩

/-- C9: on the direct shape, a Failed classification with reported return code zero
stores `last_returnCode = 1`; a non-zero reported return code is stored unchanged
(and itself forces the Failed classification). -/
theorem direct_failed_returncode_coercion (rec : SessionRecord) (b : DirectBody) :
    ((update_session_direct rec b).last_status = some "Failed" → b.return_code = 0 →
        (update_session_direct rec b).last_returnCode = some (some 1))
  ∧ (b.return_code ≠ 0 →
        (update_session_direct rec b).last_status = some "Failed"
      ∧ (update_session_direct rec b).last_returnCode = some (some b.return_code)) := by
  constructor
  · intro hfail hzero
    have hdf : direct_failed b = true := by
      by_contra hne
      rw [update_direct_status] at hfail
      simp [Bool.not_eq_true] at hne
      simp [hne] at hfail
    simp only [update_session_direct, hdf, if_true]
    by_cases h2 : (has_error_in_stdout b.output && (b.error == "")) = true <;>
      simp [h2, hzero]
  · intro hnz
    have hdf : direct_failed b = true := (direct_failed_iff b).mpr (Or.inr (Or.inr (Or.inr hnz)))
    have hne : (b.return_code != 0) = true := by simpa [bne_iff_ne] using hnz
    constructor
    · rw [update_direct_status, hdf]
      rfl
    · simp only [update_session_direct, hdf, if_true]
      by_cases h2 : (has_error_in_stdout b.output && (b.error == "")) = true <;>
        simp [h2, hne]

/-- Witness for C9: a direct-shape failure with return code 0 is stored as 1, and one
with return code 7 is stored as 7. -/
theorem direct_failed_returncode_coercion_witness :
    (update_session_direct (fresh_session_record "t0")
        { output := "", error := "boom", return_code := 0, success := true }).last_returnCode
      = some (some 1)
  ∧ (update_session_direct (fresh_session_record "t0")
        { output := "", error := "", return_code := 7, success := true }).last_returnCode
      = some (some 7) := by
  refine ⟨(direct_failed_returncode_coercion (fresh_session_record "t0")
    { output := "", error := "boom", return_code := 0, success := true }).1 (by decide) rfl, ?_⟩
  exact ((direct_failed_returncode_coercion (fresh_session_record "t0")
    { output := "", error := "", return_code := 7, success := true }).2 (by decide)).2

/-- Counterexample to C3 as stated: a wrapped response with empty stderr, no error
keyword in stdout and return code 0 is nevertheless classified Failed, because its
explicit status field is `"Failed"`. -/
theorem classifier_success_counterexample :
    (WrappedProps.mk "" "" "Failed" (some 0)).stderr = ""
  ∧ has_error_in_stdout (WrappedProps.mk "" "" "Failed" (some 0)).stdout = false
  ∧ (WrappedProps.mk "" "" "Failed" (some 0)).returnCode = some 0
  ∧ (update_session_wrapped (fresh_session_record "t0")
      (WrappedProps.mk "" "" "Failed" (some 0))).last_status ≠ some "Success"
  ∧ (update_session_wrapped (fresh_session_record "t0")
      (WrappedProps.mk "" "" "Failed" (some 0))).last_status = some "Failed" := by
  decide

/-- C3 as amended: with empty stderr, no error keyword in stdout, and return code 0 or
absent, the classifier marks Success and keeps stdout/stderr unchanged — provided,
additionally, that the wrapped status field is not `"Failed"` (respectively that the
direct success field is not false). -/
theorem classifier_success_amended (rec recd : SessionRecord) (p : WrappedProps) (b : DirectBody)
    (hw1 : p.stderr = "") (hw2 : has_error_in_stdout p.stdout = false)
    (hw3 : p.returnCode = none ∨ p.returnCode = some 0) (hw4 : p.status ≠ "Failed")
    (hd1 : b.error = "") (hd2 : has_error_in_stdout b.output = false)
    (hd3 : b.return_code = 0) (hd4 : b.success = true) :
    (update_session_wrapped rec p).last_status = some "Success"
  ∧ (update_session_wrapped rec p).last_stdout = p.stdout
  ∧ (update_session_wrapped rec p).last_stderr = p.stderr
  ∧ (update_session_direct recd b).last_status = some "Success"
  ∧ (update_session_direct recd b).last_stdout = b.output
  ∧ (update_session_direct recd b).last_stderr = b.error := by
  have hwf : wrapped_failed p = false := by
    rcases hw3 with h3 | h3 <;>
      simp [wrapped_failed, hw1, hw2, h3, hw4, rc_truthy_nonzero]
  have hdf : direct_failed b = false := by
    simp [direct_failed, hd1, hd2, hd3, hd4]
  refine ⟨?_, ?_, ?_, ?_, ?_, ?_⟩ <;>
    simp [update_session_wrapped, update_session_direct, hwf, hdf]

/-- Witness for the amended C3: concrete clean responses of both shapes are
classified Success with unchanged channels. -/
theorem classifier_success_amended_witness :
    (update_session_wrapped (fresh_session_record "t0")
        { stdout := "ok", stderr := "", status := "Success", returnCode := some 0 }).last_status
      = some "Success"
  ∧ (update_session_direct (fresh_session_record "t0")
        { output := "4\n", error := "", return_code := 0, success := true }).last_stdout
      = "4\n" := by
  have h := classifier_success_amended (fresh_session_record "t0") (fresh_session_record "t0")
    { stdout := "ok", stderr := "", status := "Success", returnCode := some 0 }
    { output := "4\n", error := "", return_code := 0, success := true }
    rfl (by decide) (Or.inr rfl) (by decide) rfl (by decide) rfl rfl
  exact ⟨h.1, h.2.2.2.2.1⟩

/-- Tracking an invocation never touches the session store. -/
@[simp] theorem track_session_active (st : GatewayState) (sid : String) :
    (track_session st sid).active_sessions = st.active_sessions := by
  unfold track_session
  split <;> rfl

/-- Counterexample to C6 as stated: with the endpoint unset, the tool does return the
configuration-error report, but only after resolving a session id and appending a
Tool-Invocation record — the Tracker and the seen-sessions set are NOT left unchanged. -/
theorem config_error_order_counterexample :
    (execute_in_dynamic_session none "aaaabbbbcccc" "t0" (.netFail "boom") "print(1)"
        (GatewayState.mk [] [] [])).1 = config_error_report
  ∧ str_contains_sub (execute_in_dynamic_session none "aaaabbbbcccc" "t0" (.netFail "boom")
        "print(1)" (GatewayState.mk [] [] [])).1 "Configuration Error" = true
  ∧ (execute_in_dynamic_session none "aaaabbbbcccc" "t0" (.netFail "boom") "print(1)"
        (GatewayState.mk [] [] [])).2.current_tools_used
      = [execution_tool_record "aaaabbbbcccc"]
  ∧ (execute_in_dynamic_session none "aaaabbbbcccc" "t0" (.netFail "boom") "print(1)"
        (GatewayState.mk [] [] [])).2.current_request_sessions = ["aaaabbbbcccc"] := by
  refine ⟨rfl, by decide, rfl, rfl⟩

/-- C6 as amended: with the endpoint unconfigured the tool returns the
configuration-error report, makes no network call (the result does not depend on the
transport outcome), and leaves the Session Store unchanged; however the session id is
resolved first and the Tracker/seen set are updated by the usual dedup step before the
configuration check. -/
theorem config_error_amended (fresh_id now code : String) (o1 o2 : HttpOutcome)
    (st : GatewayState) :
    (execute_in_dynamic_session none fresh_id now o1 code st).1 = config_error_report
  ∧ (execute_in_dynamic_session none fresh_id now o1 code st).2.active_sessions
      = st.active_sessions
  ∧ (execute_in_dynamic_session none fresh_id now o1 code st).2
      = track_session st (pick_or_create_session st.active_sessions fresh_id)
  ∧ execute_in_dynamic_session none fresh_id now o1 code st
      = execute_in_dynamic_session none fresh_id now o2 code st := by
  exact ⟨rfl, track_session_active st _, rfl, rfl⟩

/-- If none of the remaining attempts completes, the poll loop returns the timeout
report after sleeping one second per attempt. -/
theorem poll_loop_timeout (polls : Nat → PollResp) :
    ∀ fuel start, (∀ j, start ≤ j → j < start + fuel → poll_completed (polls j) = false) →
      poll_loop polls start fuel = (timeout_report, fuel) := by
  intro fuel
  induction fuel with
  | zero => intro start _; rfl
  | succ n ih =>
      intro start h
      have h0 : poll_completed (polls start) = false :=
        h start le_rfl (by omega)
      have hrest : poll_loop polls (start + 1) n = (timeout_report, n) := by
        apply ih
        intro j hj1 hj2
        exact h j (by omega) (by omega)
      simp only [poll_loop, h0, Bool.false_eq_true, if_false, hrest]

/-- The poll loop returns the success report of the first completed attempt, having
slept one second per attempt up to and including it. -/
theorem poll_loop_first_completed (polls : Nat → PollResp) :
    ∀ fuel start i, start ≤ i → i < start + fuel →
      (∀ j, start ≤ j → j < i → poll_completed (polls j) = false) →
      poll_completed (polls i) = true →
      poll_loop polls start fuel
        = (poll_success_report ((polls i).props_result.getD (polls i).raw_text),
            i - start + 1) := by
  intro fuel
  induction fuel with
  | zero => intro start i h1 h2; omega
  | succ n ih =>
      intro start i h1 h2 hprev hcomp
      by_cases hs : i = start
      · subst hs
        simp only [poll_loop, hcomp, if_true, Nat.sub_self]
      · have h0 : poll_completed (polls start) = false :=
          hprev start le_rfl (by omega)
        have hrest := ih (start + 1) i (by omega) (by omega)
          (fun j hj1 hj2 => hprev j (by omega) hj2) hcomp
        simp only [poll_loop, h0, Bool.false_eq_true, if_false, hrest]
        refine Prod.ext rfl ?_
        simp only
        omega

/-- C7: on HTTP 202 the tool polls a bounded 10 times with a one-second sleep before
each attempt; the first attempt whose successfully retrieved body reports status
`"Completed"` yields its result text, exhausting all 10 attempts yields the timeout
report after 10 seconds of sleeping, and in every 202 case (with or without a Location
header) the Session Store is left completely unmodified. -/
theorem async_polling_bounded (e fresh_id now code loc : String) (polls : Nat → PollResp)
    (st : GatewayState) (i : Nat) (r : String) :
    ((execute_in_dynamic_session (some e) fresh_id now (.http202 (some loc) polls) code st).2.active_sessions
        = st.active_sessions)
  ∧ ((execute_in_dynamic_session (some e) fresh_id now (.http202 none polls) code st).2.active_sessions
        = st.active_sessions)
  ∧ ((∀ j, j < 10 → poll_completed (polls j) = false) →
        (execute_in_dynamic_session (some e) fresh_id now (.http202 (some loc) polls) code st).1
            = timeout_report
        ∧ (poll_loop polls 0 10).2 = 10)
  ∧ (i < 10 → (∀ j, j < i → poll_completed (polls j) = false) →
      poll_completed (polls i) = true → (polls i).props_result = some r →
        (execute_in_dynamic_session (some e) fresh_id now (.http202 (some loc) polls) code st).1
            = poll_success_report r
        ∧ (poll_loop polls 0 10).2 = i + 1) := by
  refine ⟨track_session_active st _, track_session_active st _, ?_, ?_⟩
  · intro h
    have := poll_loop_timeout polls 10 0 (fun j _ hj => h j (by omega))
    constructor
    · show (poll_loop polls 0 10).1 = timeout_report
      rw [this]
    · rw [this]
  · intro h1 h2 h3 h4
    have := poll_loop_first_completed polls 10 0 i (Nat.zero_le i) (by omega)
      (fun j _ hj => h2 j hj) h3
    rw [h4] at this
    constructor
    · show (poll_loop polls 0 10).1 = poll_success_report r
      rw [this]
      simp
    · rw [this]
      simp

/-- A concrete poll sequence that completes on the third attempt. -/
def sample_polls : Nat → PollResp := fun j =>
  if j == 2 then
    { status_code := 200, props_status := some "Completed", props_result := some "42",
      raw_text := "raw" }
  else
    { status_code := 200, props_status := some "Running", props_result := none,
      raw_text := "raw" }

/-- A concrete poll sequence that never completes. -/
def stalled_polls : Nat → PollResp := fun _ =>
  { status_code := 500, props_status := none, props_result := none, raw_text := "raw" }

/-- Witness for C7: with polls that never complete the tool reports the timeout after
10 sleeps; with polls completing on attempt 3 it returns that attempt's result text. -/
theorem async_polling_bounded_witness :
    ((execute_in_dynamic_session (some "ep") "aaaabbbbcccc" "t0"
        (.http202 (some "loc") stalled_polls) "print(1)" (GatewayState.mk [] [] [])).1
      = timeout_report ∧ (poll_loop stalled_polls 0 10).2 = 10)
  ∧ ((execute_in_dynamic_session (some "ep") "aaaabbbbcccc" "t0"
        (.http202 (some "loc") sample_polls) "print(1)" (GatewayState.mk [] [] [])).1
      = poll_success_report "42" ∧ (poll_loop sample_polls 0 10).2 = 3) := by
  constructor
  · exact (async_polling_bounded "ep" "aaaabbbbcccc" "t0" "print(1)" "loc" stalled_polls
      (GatewayState.mk [] [] []) 0 "").2.2.1 (by decide)
  · exact (async_polling_bounded "ep" "aaaabbbbcccc" "t0" "print(1)" "loc" sample_polls
      (GatewayState.mk [] [] []) 2 "42").2.2.2 (by decide) (by decide) (by decide) (by decide)

/-- Looking up a key just written returns the written record. -/
theorem store_lookup_set (store : List (String × SessionRecord)) (sid : String)
    (v : SessionRecord) : store_lookup (store_set store sid v) sid = some v := by
  induction store with
  | nil => simp [store_set, store_lookup]
  | cons hd tl ih =>
      obtain ⟨k, v0⟩ := hd
      by_cases h : (k == sid) = true
      · simp [store_set, store_lookup, h]
      · simp [store_set, store_lookup, h, ih]

/-- The store written by a 200 response is the previous store with the picked
session's record replaced (or appended). -/
theorem apply_http200_fst (store : List (String × SessionRecord)) (sid now : String)
    (body : SandboxBody) :
    (apply_http200 store sid now body).1
      = store_set store sid (apply_http200 store sid now body).2 := rfl

/-- Decomposition of the tool's HTTP 200 branch into store update and report. -/
theorem exec_http200 (e fresh_id now code : String) (body : SandboxBody) (st : GatewayState) :
    (execute_in_dynamic_session (some e) fresh_id now (.http200 body) code st).1
      = format_execution_report (pick_or_create_session st.active_sessions fresh_id) code
          (apply_http200 st.active_sessions
            (pick_or_create_session st.active_sessions fresh_id) now body).2
  ∧ (execute_in_dynamic_session (some e) fresh_id now (.http200 body) code st).2.active_sessions
      = (apply_http200 st.active_sessions
          (pick_or_create_session st.active_sessions fresh_id) now body).1 := by
  constructor <;> simp [execute_in_dynamic_session]

/-- C10: a wrapped 200 response with no returnCode field that classifies as Success
(empty stderr, clean stdout, status not Failed) stores `last_status = "Success"` and
`last_returnCode = None`, yet the report handed back to the agent is rendered in the
Code Execution Failed format with return code `None`, because the stored null return
code is treated as non-zero by the report check. -/
theorem wrapped_missing_returncode_report (e fresh_id now code : String) (st : GatewayState)
    (p : WrappedProps)
    (h1 : p.returnCode = none) (h2 : p.stderr = "") (h3 : has_error_in_stdout p.stdout = false)
    (h4 : p.status ≠ "Failed") :
    ∃ rec, store_lookup (execute_in_dynamic_session (some e) fresh_id now
          (.http200 (.wrapped p)) code st).2.active_sessions
          (pick_or_create_session st.active_sessions fresh_id) = some rec
      ∧ rec.last_status = some "Success"
      ∧ rec.last_returnCode = some none
      ∧ (execute_in_dynamic_session (some e) fresh_id now (.http200 (.wrapped p)) code st).1
          = "❌ **Code Execution Failed**\n\n**Session ID:** "
              ++ (pick_or_create_session st.active_sessions fresh_id).take 12
              ++ "...\n**Return Code:** " ++ "None"
              ++ "\n\n**Code Executed:**\n```python\n" ++ code
              ++ "\n```\n\n**Error:**\n```\n" ++ p.stdout ++ "\n```\n" := by
  have hf : wrapped_failed p = false := by
    simp [wrapped_failed, h1, h2, h3, rc_truthy_nonzero, beq_eq_false_iff_ne]
    exact h4
  obtain ⟨hout, hact⟩ := exec_http200 e fresh_id now code (.wrapped p) st
  refine ⟨(apply_http200 st.active_sessions
      (pick_or_create_session st.active_sessions fresh_id) now (.wrapped p)).2, ?_, ?_, ?_, ?_⟩
  · rw [hact, apply_http200_fst]
    exact store_lookup_set _ _ _
  · simp [apply_http200, update_session_wrapped, hf]
  · simp [apply_http200, update_session_wrapped, hf, h1]
  · rw [hout]
    have hrc : (apply_http200 st.active_sessions
        (pick_or_create_session st.active_sessions fresh_id) now (.wrapped p)).2.last_returnCode
        = some none := by
      simp [apply_http200, update_session_wrapped, hf, h1]
    have hst : (apply_http200 st.active_sessions
        (pick_or_create_session st.active_sessions fresh_id) now (.wrapped p)).2.last_status
        = some "Success" := by
      simp [apply_http200, update_session_wrapped, hf]
    have herr : (apply_http200 st.active_sessions
        (pick_or_create_session st.active_sessions fresh_id) now (.wrapped p)).2.last_stderr
        = "" := by
      simp [apply_http200, update_session_wrapped, hf, h2]
    have hsout : (apply_http200 st.active_sessions
        (pick_or_create_session st.active_sessions fresh_id) now (.wrapped p)).2.last_stdout
        = p.stdout := by
      simp [apply_http200, update_session_wrapped, hf]
    simp [format_execution_report, hrc, hst, herr, hsout, rc_read_nonzero, py_show_rc]

/-- Witness for C10: a concrete wrapped Success body without returnCode yields a
stored Success record but a Failed-format report with return code None. -/
theorem wrapped_missing_returncode_report_witness :
    ∃ rec, store_lookup (execute_in_dynamic_session (some "ep") "aaaabbbbcccc" "t0"
          (.http200 (.wrapped (WrappedProps.mk "ok" "" "Success" none))) "print(1)"
          (GatewayState.mk [] [] [])).2.active_sessions
          (pick_or_create_session ([] : List (String × SessionRecord)) "aaaabbbbcccc") = some rec
      ∧ rec.last_status = some "Success"
      ∧ rec.last_returnCode = some none
      ∧ (execute_in_dynamic_session (some "ep") "aaaabbbbcccc" "t0"
          (.http200 (.wrapped (WrappedProps.mk "ok" "" "Success" none))) "print(1)"
          (GatewayState.mk [] [] [])).1
          = "❌ **Code Execution Failed**\n\n**Session ID:** "
              ++ (pick_or_create_session ([] : List (String × SessionRecord)) "aaaabbbbcccc").take 12
              ++ "...\n**Return Code:** " ++ "None"
              ++ "\n\n**Code Executed:**\n```python\n" ++ "print(1)"
              ++ "\n```\n\n**Error:**\n```\n" ++ "ok" ++ "\n```\n" :=
  wrapped_missing_returncode_report "ep" "aaaabbbbcccc" "t0" "print(1)"
    (GatewayState.mk [] [] []) (WrappedProps.mk "ok" "" "Success" none)
    rfl rfl (by decide) (by decide)

/-- Writing an existing key leaves the key sequence of the store unchanged. -/
theorem store_set_keys_of_mem (sid : String) (v : SessionRecord) :
    ∀ store : List (String × SessionRecord), sid ∈ store.map Prod.fst →
      (store_set store sid v).map Prod.fst = store.map Prod.fst := by
  intro store
  induction store with
  | nil => intro h; simp at h
  | cons hd tl ih =>
      obtain ⟨k, v0⟩ := hd
      intro h
      by_cases hk : (k == sid) = true
      · simp [store_set, hk]
      · have hmem : sid ∈ tl.map Prod.fst := by
          simp only [List.map_cons, List.mem_cons] at h
          rcases h with h | h
          · exact absurd h.symm (by simpa [beq_iff_eq] using hk)
          · exact h
        simp [store_set, hk, ih hmem]

/-- When the store's key list is exactly `[fid]`, any execution keeps it `[fid]`. -/
theorem exec_keeps_single_key (fid : String) (ep : Option String) (fresh_id now code : String)
    (oc : HttpOutcome) (st : GatewayState)
    (h : st.active_sessions.map Prod.fst = [fid]) :
    (execute_in_dynamic_session ep fresh_id now oc code st).2.active_sessions.map Prod.fst
      = [fid] := by
  have hpick : pick_or_create_session st.active_sessions fresh_id = fid := by
    simp [pick_or_create_session, h]
  cases ep with
  | none => simpa [execute_in_dynamic_session] using h
  | some e =>
      cases oc with
      | authFail msg => simpa [execute_in_dynamic_session] using h
      | netFail msg => simpa [execute_in_dynamic_session] using h
      | otherStatus c t => simpa [execute_in_dynamic_session] using h
      | timeoutRaised => simpa [execute_in_dynamic_session] using h
      | http202 loc polls =>
          cases loc <;> simpa [execute_in_dynamic_session] using h
      | http200 body =>
          have hmem : pick_or_create_session st.active_sessions fresh_id
              ∈ st.active_sessions.map Prod.fst := by
            rw [hpick, h]; exact List.mem_singleton.mpr rfl
          have := store_set_keys_of_mem (pick_or_create_session st.active_sessions fresh_id)
            (apply_http200 st.active_sessions
              (pick_or_create_session st.active_sessions fresh_id) now body).2
            st.active_sessions hmem
          rw [(exec_http200 e fresh_id now code body st).2, apply_http200_fst, this, h]

/-- When the store's key list is exactly `[fid]`, any sequence of executions keeps it. -/
theorem run_calls_keeps_single_key (fid : String) (ps : List CallParams) :
    ∀ st : GatewayState, st.active_sessions.map Prod.fst = [fid] →
      (run_calls st ps).active_sessions.map Prod.fst = [fid] := by
  induction ps with
  | nil => intro st h; exact h
  | cons p ps ih =>
      intro st h
      exact ih _ (exec_keeps_single_key fid p.endpoint p.fresh_id p.now p.code p.outcome st h)

/-- C4: the session id used is the most-recently-created key of the store when the
store is non-empty, and the freshly minted 12-character identifier (12 characters of
the uuid4 hex string) only when the store is empty; once an execution creates session
`fresh_id` from an empty store, every later execution in the process picks `fresh_id`
again, whatever ids it could mint. -/
theorem session_pick_and_reuse (store : List (String × SessionRecord))
    (fresh_id uuid_hex e now code fid2 : String) (body : SandboxBody) (st : GatewayState)
    (ps : List CallParams)
    (hs : store ≠ []) (hu : uuid_hex.length = 32) (hempty : st.active_sessions = []) :
    (∃ k, (store.map Prod.fst).getLast? = some k ∧ pick_or_create_session store fresh_id = k)
  ∧ pick_or_create_session [] (mint_session_id uuid_hex) = mint_session_id uuid_hex
  ∧ (mint_session_id uuid_hex).length = 12
  ∧ pick_or_create_session
      (run_calls (execute_in_dynamic_session (some e) fresh_id now (.http200 body) code st).2
        ps).active_sessions fid2 = fresh_id := by
  refine ⟨?_, rfl, ?_, ?_⟩
  · have : store.map Prod.fst ≠ [] := by simpa using hs
    obtain ⟨k, hk⟩ := Option.ne_none_iff_exists'.mp (mt List.getLast?_eq_none_iff.mp this)
    exact ⟨k, hk, by simp [pick_or_create_session, hk]⟩
  · have : uuid_hex.data.length = 32 := hu
    simp [mint_session_id, String.length, this]
  · have hkeys1 : (execute_in_dynamic_session (some e) fresh_id now (.http200 body) code
        st).2.active_sessions.map Prod.fst = [fresh_id] := by
      rw [(exec_http200 e fresh_id now code body st).2]
      simp [hempty, apply_http200, pick_or_create_session, store_set, store_lookup]
    have := run_calls_keeps_single_key fresh_id ps _ hkeys1
    simp [pick_or_create_session, this]

/-- Witness for C4 at concrete inputs: a one-entry store picks its key, an empty store
picks the 12-character mint, and after a first execution every later pick returns the
created id. -/
theorem session_pick_and_reuse_witness :
    (∃ k, ([("sessA", fresh_session_record "t0")].map
          (Prod.fst (α := String) (β := SessionRecord))).getLast? = some k
        ∧ pick_or_create_session [("sessA", fresh_session_record "t0")] "freshB" = k)
  ∧ pick_or_create_session [] (mint_session_id "0123456789abcdef0123456789abcdef")
      = mint_session_id "0123456789abcdef0123456789abcdef"
  ∧ (mint_session_id "0123456789abcdef0123456789abcdef").length = 12
  ∧ pick_or_create_session
      (run_calls (execute_in_dynamic_session (some "ep") "freshB" "t1"
          (.http200 (.direct (DirectBody.mk "4\n" "" 0 true))) "print(4)"
          (GatewayState.mk [] [] [])).2 []).active_sessions "freshC" = "freshB" :=
  session_pick_and_reuse [("sessA", fresh_session_record "t0")] "freshB"
    "0123456789abcdef0123456789abcdef" "ep" "t1" "print(4)" "freshC"
    (.direct (DirectBody.mk "4\n" "" 0 true)) (GatewayState.mk [] [] []) []
    (by decide) (by decide) rfl

/-- Appending one record adds at most one to any session count. -/
theorem count_session_records_append (sid : String) (l : List ToolRecord) (r : ToolRecord) :
    count_session_records sid (l ++ [r])
      = count_session_records sid l + (if r.session_id == some sid then 1 else 0) := by
  simp only [count_session_records, List.filter_append, List.length_append]
  congr 1
  by_cases h : (r.session_id == some sid) = true <;> simp [List.filter, h]

/-- The tracker invariant: every session id has at most one record, and none at all
when it is not in the seen set. -/
def tracker_invariant (st : GatewayState) : Prop :=
  ∀ sid : String, count_session_records sid st.current_tools_used ≤ 1
    ∧ (sid ∉ st.current_request_sessions → count_session_records sid st.current_tools_used = 0)

/-- The dedup step preserves the tracker invariant. -/
theorem track_session_invariant (st : GatewayState) (s : String)
    (h : tracker_invariant st) : tracker_invariant (track_session st s) := by
  intro sid
  unfold track_session
  by_cases hc : s ∈ st.current_request_sessions
  · simp only [hc, if_true]
    exact h sid
  · simp only [hc, if_false]
    rw [count_session_records_append]
    by_cases hss : s = sid
    · subst hss
      have hzero : count_session_records s st.current_tools_used = 0 := (h s).2 hc
      refine ⟨?_, ?_⟩
      · simp [hzero, execution_tool_record]
      · intro hmem
        exact absurd (List.mem_cons_self s _) hmem
    · have : ((execution_tool_record s).session_id == some sid) = false := by
        simp [execution_tool_record, hss]
      refine ⟨?_, ?_⟩
      · simp only [this, if_false, Nat.add_zero]
        exact (h sid).1
      · intro hmem
        simp only [this, if_false, Nat.add_zero]
        refine (h sid).2 ?_
        intro hmem2
        exact hmem (List.mem_cons_of_mem _ hmem2)

/-- The tool updates the tracker fields exactly as the dedup step does. -/
theorem exec_tracker_fields (ep : Option String) (fresh_id now code : String)
    (oc : HttpOutcome) (st : GatewayState) :
    (execute_in_dynamic_session ep fresh_id now oc code st).2.current_tools_used
      = (track_session st (pick_or_create_session st.active_sessions fresh_id)).current_tools_used
  ∧ (execute_in_dynamic_session ep fresh_id now oc code st).2.current_request_sessions
      = (track_session st
          (pick_or_create_session st.active_sessions fresh_id)).current_request_sessions := by
  cases ep with
  | none => exact ⟨rfl, rfl⟩
  | some e =>
      cases oc with
      | authFail msg => exact ⟨rfl, rfl⟩
      | netFail msg => exact ⟨rfl, rfl⟩
      | http200 body => exact ⟨rfl, rfl⟩
      | http202 loc polls => cases loc <;> exact ⟨rfl, rfl⟩
      | otherStatus c t => exact ⟨rfl, rfl⟩
      | timeoutRaised => exact ⟨rfl, rfl⟩

/-- One tool execution preserves the tracker invariant. -/
theorem exec_invariant (ep : Option String) (fresh_id now code : String) (oc : HttpOutcome)
    (st : GatewayState) (h : tracker_invariant st) :
    tracker_invariant (execute_in_dynamic_session ep fresh_id now oc code st).2 := by
  intro sid
  obtain ⟨h1, h2⟩ := exec_tracker_fields ep fresh_id now code oc st
  rw [h1, h2]
  exact track_session_invariant st _ h sid

/-- Any sequence of tool executions preserves the tracker invariant. -/
theorem run_calls_invariant (ps : List CallParams) :
    ∀ st : GatewayState, tracker_invariant st → tracker_invariant (run_calls st ps) := by
  induction ps with
  | nil => intro st h; exact h
  | cons p ps ih =>
      intro st h
      exact ih _ (exec_invariant p.endpoint p.fresh_id p.now p.code p.outcome st h)

/-- C5: the per-request reset clears the tools-used list and the seen set, and within
one chat request — any sequence of tool executions after the reset — every session id
appears in at most one Tool-Invocation record, however many executions used it. -/
theorem tracker_dedup_per_request (st : GatewayState) (ps : List CallParams) (sid : String) :
    (reset_request_tracking st).current_tools_used = []
  ∧ (reset_request_tracking st).current_request_sessions = []
  ∧ count_session_records sid
      (run_calls (reset_request_tracking st) ps).current_tools_used ≤ 1 := by
  refine ⟨rfl, rfl, ?_⟩
  have hreset : tracker_invariant (reset_request_tracking st) := by
    intro s
    simp [reset_request_tracking, count_session_records]
  exact ((run_calls_invariant ps _ hreset) sid).1

/-- A request body with no properties and no top-level fields. -/
def empty_srv_request : SrvRequest :=
  { properties := none, code := none, shellCommand := none, command := none,
    language := none, timeout := none, timeoutInSeconds := none }

/-- Counterexample to C8 as stated: a request with neither code nor shell command gets
HTTP 400 with a top-level error object — not shape A. -/
theorem server_shape_counterexample :
    srv_execute_code (some empty_srv_request) (.finished "" "" 0)
      = (.errorBody "No code or command provided", 400)
  ∧ srv_body_is_props (srv_execute_code (some empty_srv_request) (.finished "" "" 0)).1
      = false := by
  decide

/-- C8 as amended: the sandbox server's `/execute` responds with full shape A
(status/stdout/stderr/returnCode under `properties`) with HTTP 200 on a finished run,
with a partial properties body at 408 on timeout and at 500 on internal error, and with
HTTP 400 carrying a top-level error object — not shape A — when the body is missing or
neither code nor a shell command is present (or the language is unsupported); every
non-shape-A response has status 400. -/
theorem server_response_contract (d : SrvRequest) (runner : RunOutcome)
    (stdout stderr : String) (rc : Int) (msg trace : String) :
    srv_execute_code none runner = (.errorBody "No JSON data provided", 400)
  ∧ (py_truthy_stripped ((effective_properties d).code.getD "") = false →
      py_truthy_stripped ((effective_properties d).shellCommand.getD "") = false →
        srv_execute_code (some d) runner = (.errorBody "No code or command provided", 400))
  ∧ (srv_dispatches d = true →
        (srv_execute_code (some d) (.finished stdout stderr rc)).2 = 200
      ∧ srv_body_full_shape_a (srv_execute_code (some d) (.finished stdout stderr rc)).1 = true)
  ∧ (srv_dispatches d = true →
        (srv_execute_code (some d) .timedOut).2 = 408
      ∧ srv_body_is_props (srv_execute_code (some d) .timedOut).1 = true)
  ∧ (srv_dispatches d = true →
        (srv_execute_code (some d) (.raised msg trace)).2 = 500
      ∧ srv_body_is_props (srv_execute_code (some d) (.raised msg trace)).1 = true)
  ∧ (srv_body_is_props (srv_execute_code (some d) runner).1 = false →
        (srv_execute_code (some d) runner).2 = 400) := by
  refine ⟨rfl, ?_, ?_, ?_, ?_, ?_⟩
  · intro h1 h2
    simp [srv_execute_code, h1, h2]
  · intro hd
    unfold srv_dispatches at hd
    simp only [Bool.and_eq_true, Bool.or_eq_true] at hd
    obtain ⟨hv, hbr⟩ := hd
    have hcond : (!py_truthy_stripped ((effective_properties d).code.getD "")
        && !py_truthy_stripped ((effective_properties d).shellCommand.getD "")) = false := by
      rcases hv with h | h <;> simp [h]
    by_cases hsh : (((effective_properties d).shellCommand.getD "") != "") = true
    · simp [srv_execute_code, hcond, hsh, srv_body_full_shape_a]
    · have hsup : supported_language ((effective_properties d).language.getD "python") = true := by
        rcases hbr with h | h
        · exact absurd h hsh
        · exact h
      simp [srv_execute_code, hcond, hsh, hsup, srv_body_full_shape_a]
  · intro hd
    unfold srv_dispatches at hd
    simp only [Bool.and_eq_true, Bool.or_eq_true] at hd
    obtain ⟨hv, hbr⟩ := hd
    have hcond : (!py_truthy_stripped ((effective_properties d).code.getD "")
        && !py_truthy_stripped ((effective_properties d).shellCommand.getD "")) = false := by
      rcases hv with h | h <;> simp [h]
    by_cases hsh : (((effective_properties d).shellCommand.getD "") != "") = true
    · simp [srv_execute_code, hcond, hsh, srv_body_is_props]
    · have hsup : supported_language ((effective_properties d).language.getD "python") = true := by
        rcases hbr with h | h
        · exact absurd h hsh
        · exact h
      simp [srv_execute_code, hcond, hsh, hsup, srv_body_is_props]
  · intro hd
    unfold srv_dispatches at hd
    simp only [Bool.and_eq_true, Bool.or_eq_true] at hd
    obtain ⟨hv, hbr⟩ := hd
    have hcond : (!py_truthy_stripped ((effective_properties d).code.getD "")
        && !py_truthy_stripped ((effective_properties d).shellCommand.getD "")) = false := by
      rcases hv with h | h <;> simp [h]
    by_cases hsh : (((effective_properties d).shellCommand.getD "") != "") = true
    · simp [srv_execute_code, hcond, hsh, srv_body_is_props]
    · have hsup : supported_language ((effective_properties d).language.getD "python") = true := by
        rcases hbr with h | h
        · exact absurd h hsh
        · exact h
      simp [srv_execute_code, hcond, hsh, hsup, srv_body_is_props]
  · intro hnp
    by_cases hcond : (!py_truthy_stripped ((effective_properties d).code.getD "")
        && !py_truthy_stripped ((effective_properties d).shellCommand.getD "")) = true
    · simp [srv_execute_code, hcond]
    · simp only [Bool.not_eq_true] at hcond
      by_cases hsh : (((effective_properties d).shellCommand.getD "") != "") = true
      · exfalso
        cases runner <;> simp [srv_execute_code, hcond, hsh, srv_body_is_props] at hnp
      · by_cases hsup : supported_language ((effective_properties d).language.getD "python") = true
        · exfalso
          cases runner <;> simp [srv_execute_code, hcond, hsh, hsup, srv_body_is_props] at hnp
        · simp [srv_execute_code, hcond, hsh, hsup]

/-- Witness for C8's amended contract: a concrete python-code request gets 200 with
full shape A on a finished run, 408 on timeout, 500 on an internal error, and the
empty request gets the top-level error object at 400. -/
theorem server_response_contract_witness :
    ((srv_execute_code (some { empty_srv_request with code := some "print(1)" })
        (.finished "1\n" "" 0)).2 = 200
      ∧ srv_body_full_shape_a (srv_execute_code
          (some { empty_srv_request with code := some "print(1)" })
          (.finished "1\n" "" 0)).1 = true)
  ∧ ((srv_execute_code (some { empty_srv_request with code := some "print(1)" })
        .timedOut).2 = 408
      ∧ srv_body_is_props (srv_execute_code
          (some { empty_srv_request with code := some "print(1)" }) .timedOut).1 = true)
  ∧ ((srv_execute_code (some { empty_srv_request with code := some "print(1)" })
        (.raised "boom" "tb")).2 = 500
      ∧ srv_body_is_props (srv_execute_code
          (some { empty_srv_request with code := some "print(1)" })
          (.raised "boom" "tb")).1 = true)
  ∧ srv_execute_code (some empty_srv_request) .timedOut
      = (.errorBody "No code or command provided", 400) := by
  have h1 := server_response_contract { empty_srv_request with code := some "print(1)" }
    (.finished "1\n" "" 0) "1\n" "" 0 "boom" "tb"
  have h2 := server_response_contract empty_srv_request .timedOut "1\n" "" 0 "boom" "tb"
  exact ⟨h1.2.2.1 (by decide), h1.2.2.2.1 (by decide), h1.2.2.2.2.1 (by decide),
    h2.2.1 (by decide) (by decide)⟩
